import Mathlib

/-!
Shallow embedding of `src/linux/flutter_local_db_plugin.cc`, the Linux
plugin-registration shim of the flutter_local_db repository, together with
proofs of the specification's claims about it.

The source file defines:
* `struct _FlutterLocalDbPlugin { GObject parent_instance; }` — an object
  type with no fields beyond the base GObject header;
* `flutter_local_db_plugin_class_init` and `flutter_local_db_plugin_init`,
  both with empty bodies;
* `flutter_local_db_plugin_register_with_registrar(FlPluginRegistrar*)`,
  with an empty body (the plugin is FFI-based and registers no method
  channels);
* a `G_DEFINE_TYPE` invocation that generates
  `flutter_local_db_plugin_get_type`.

State that the C code could in principle touch is made explicit: the
registrar object (whose recorded interactions a mock would observe) and the
engine state (the set of message/event channels observable by other
components).  An empty function body is embedded as the identity on all of
that state.
-/

/-- Base object header of the host object system (GObject): a type tag and a
reference count.  The concrete fields stand in for the opaque header; what
matters is only that the header is the entire content of a plugin instance. -/
structure GObject where
  g_type_instance : Nat
  ref_count : Nat
  deriving DecidableEq, Repr

/-- Base class structure of the host object system (GObjectClass). -/
structure GObjectClass where
  g_type_class : Nat
  deriving DecidableEq, Repr

/-- Embedding of `struct _FlutterLocalDbPlugin { GObject parent_instance; }`
(src/linux/flutter_local_db_plugin.cc, lines 10-12): the plugin instance has
no field other than the base header. -/
structure FlutterLocalDbPlugin where
  parent_instance : GObject
  deriving DecidableEq, Repr

/-- Class structure of the plugin type, produced by the object-system
boilerplate; it holds nothing beyond the base class. -/
structure FlutterLocalDbPluginClass where
  parent_class : GObjectClass
  deriving DecidableEq, Repr

/-- A registrar object as a mock would observe it: the list of interactions
recorded on it (method-channel creations, handler installations, ...).
The source never touches the registrar, so no further structure is needed. -/
structure FlPluginRegistrar where
  interactions : List String
  deriving DecidableEq, Repr

/-- A registrar handle as passed over the C ABI: either a pointer to a
registrar object or NULL.  `none` models the NULL / invalid handle. -/
abbrev RegistrarHandle : Type := Option FlPluginRegistrar

/-- Engine-side state observable by other components: the message/event
channels that currently exist. -/
structure EngineState where
  channels : List String
  deriving DecidableEq, Repr

/-- Embedding of `flutter_local_db_plugin_register_with_registrar`
(src/linux/flutter_local_db_plugin.cc, lines 22-24).  The body of the C
function is empty, so the embedding returns the registrar handle and the
engine state unchanged. -/
def flutter_local_db_plugin_register_with_registrar
    (registrar : RegistrarHandle) (engine : EngineState) :
    RegistrarHandle × EngineState :=
  (registrar, engine)

/-- Error-surface view of the register operation: a C function exits either
normally or through an error path (abort, g_error, an unwound exception...).
The body of `flutter_local_db_plugin_register_with_registrar` contains no
error path at all, so the checked embedding always returns `Except.ok`. -/
def flutter_local_db_plugin_register_checked
    (registrar : RegistrarHandle) (engine : EngineState) :
    Except String (RegistrarHandle × EngineState) :=
  Except.ok (flutter_local_db_plugin_register_with_registrar registrar engine)

/-- Embedding of `flutter_local_db_plugin_class_init`
(src/linux/flutter_local_db_plugin.cc, lines 16-17): the body is empty, so
the class structure is returned unchanged. -/
def flutter_local_db_plugin_class_init
    (klass : FlutterLocalDbPluginClass) : FlutterLocalDbPluginClass :=
  klass

/-- Embedding of `flutter_local_db_plugin_init`
(src/linux/flutter_local_db_plugin.cc, lines 19-20): the body is empty, so
the instance is returned unchanged. -/
def flutter_local_db_plugin_init
    (self : FlutterLocalDbPlugin) : FlutterLocalDbPlugin :=
  self

/-- Construction of a plugin instance by the host object system: the base
header is laid down and the instance initializer runs on it. -/
def newFlutterLocalDbPlugin (header : GObject) : FlutterLocalDbPlugin :=
  flutter_local_db_plugin_init { parent_instance := header }

/-- A heap of plugin instances, used to state independence of instances. -/
abbrev PluginHeap : Type := List FlutterLocalDbPlugin

/-- Run the instance initializer on the i-th instance of a heap, leaving the
others in place.  This is the only instance-level operation the source
defines, so it is the only mutation an instance can undergo. -/
def runInitAt : PluginHeap → Nat → PluginHeap
  | [], _ => []
  | p :: ps, 0 => flutter_local_db_plugin_init p :: ps
  | p :: ps, Nat.succ i => p :: runInitAt ps i

/-- Iterated registration: call the register function n times, threading the
registrar handle and the engine state through the calls. -/
def registerIter : Nat → RegistrarHandle × EngineState → RegistrarHandle × EngineState
  | 0, s => s
  | Nat.succ n, s =>
      let s1 := registerIter n s
      flutter_local_db_plugin_register_with_registrar s1.1 s1.2

/-- Modelled from the spec: the body of `flutter_local_db_plugin_get_type`
is generated by the host object system's `G_DEFINE_TYPE` macro invocation
(line 14 of the source) and its expansion is not part of this repository.
Per the spec, the hook registers the type once per process and returns a
stable, non-null opaque type identifier on every call.  The registry state
carries the cached identifier (`none` before the first call) and a counter
from which a fresh nonzero identifier is drawn on first registration. -/
structure TypeRegistry where
  cachedTypeId : Option Nat
  usedIds : Nat
  deriving DecidableEq, Repr

/-- Modelled from the spec: the generated `flutter_local_db_plugin_get_type`
hook.  On the first call it registers the type, obtaining a fresh nonzero
identifier and caching it; on every later call it returns the cached
identifier without touching the registry. -/
def flutter_local_db_plugin_get_type (reg : TypeRegistry) : Nat × TypeRegistry :=
  match reg.cachedTypeId with
  | some t => (t, reg)
  | none =>
      let t := reg.usedIds + 1
      (t, { cachedTypeId := some t, usedIds := reg.usedIds + 1 })

/-- The type registry at process start: no type registered yet. -/
def TypeRegistry.start : TypeRegistry :=
  { cachedTypeId := none, usedIds := 0 }

/-- A registry is valid when any cached identifier is nonzero (as guaranteed
by the host object system, which never hands out the invalid type 0). -/
def TypeRegistry.Valid (reg : TypeRegistry) : Prop :=
  ∀ t, reg.cachedTypeId = some t → 0 < t

/-- The registration state machine of the spec: the plugin is unregistered
until the host's single register call and registered afterwards. -/
inductive RegState where
  | unregistered
  | registered
  deriving DecidableEq, Repr

/-- Modelled from the spec: the host framework treats the plugin as
registered once `flutter_local_db_plugin_register_with_registrar` returns.
The step performs the (effect-free) call and moves the machine to the
registered state regardless of the previous state. -/
def registrationStep (registrar : RegistrarHandle) (engine : EngineState)
    (_s : RegState) : RegState :=
  let _call := flutter_local_db_plugin_register_with_registrar registrar engine
  RegState.registered

/-- Helper: the register call is the identity on the threaded state, so any
number of iterated calls leaves the state unchanged. -/
theorem registerIter_fixed (n : Nat) (s : RegistrarHandle × EngineState) :
    registerIter n s = s := by
  induction n with
  | zero => rfl
  | succ m ih =>
      simp [registerIter, ih, flutter_local_db_plugin_register_with_registrar]

/-- C1: for every valid registrar handle, the register call returns without
observable side effects and without modifying the handle; in particular a
mock registrar whose recorded-interactions list is empty before the call
still has an empty interactions list afterwards. -/
theorem register_no_side_effects
    (mock : FlPluginRegistrar) (engine : EngineState)
    (hmock : mock.interactions = []) :
    flutter_local_db_plugin_register_with_registrar (some mock) engine
      = (some mock, engine) ∧
    (flutter_local_db_plugin_register_with_registrar (some mock) engine).1.map
        FlPluginRegistrar.interactions = some [] := by
  refine ⟨rfl, ?_⟩
  simp [flutter_local_db_plugin_register_with_registrar, hmock]

/-- C1 witness: the theorem applied to a concrete mock registrar with an
empty interactions list and a concrete engine state. -/
theorem register_no_side_effects_witness :
    flutter_local_db_plugin_register_with_registrar
        (some { interactions := [] }) { channels := [] }
      = (some { interactions := [] }, { channels := [] }) ∧
    (flutter_local_db_plugin_register_with_registrar
        (some { interactions := [] }) { channels := [] }).1.map
        FlPluginRegistrar.interactions = some [] :=
  register_no_side_effects { interactions := [] } { channels := [] } rfl

/-- C2: the register operation can never fail: for every registrar handle
and engine state the checked embedding returns normally with `Except.ok`,
never an error. -/
theorem register_never_fails :
    ∀ (registrar : RegistrarHandle) (engine : EngineState),
      flutter_local_db_plugin_register_checked registrar engine
        = Except.ok (registrar, engine) := by
  intro registrar engine
  rfl

/-- C3: the register call creates no message/event channel: after the call
the engine holds exactly the channels it held before, so no channel exists
that did not exist before the call. -/
theorem register_creates_no_channel :
    ∀ (registrar : RegistrarHandle) (engine : EngineState),
      ((flutter_local_db_plugin_register_with_registrar registrar engine).2).channels
        = engine.channels := by
  intro registrar engine
  rfl

/-- C4: the type-registration hook is deterministic and non-null within a
process: in any valid registry state (in particular the process-start state,
which is valid) a call yields a nonzero type identifier, a repeated call
yields the same identifier, and validity is preserved. -/
theorem get_type_stable_nonnull
    (reg : TypeRegistry) (hv : reg.Valid) :
    0 < (flutter_local_db_plugin_get_type reg).1 ∧
    (flutter_local_db_plugin_get_type
        (flutter_local_db_plugin_get_type reg).2).1
      = (flutter_local_db_plugin_get_type reg).1 ∧
    TypeRegistry.Valid (flutter_local_db_plugin_get_type reg).2 := by
  match h : reg.cachedTypeId with
  | some t =>
      have e : flutter_local_db_plugin_get_type reg = (t, reg) := by
        unfold flutter_local_db_plugin_get_type
        rw [h]
      refine ⟨?_, ?_, ?_⟩
      · rw [e]
        exact hv t h
      · rw [e]
        rw [show ((t, reg) : Nat × TypeRegistry).2 = reg from rfl, e]
      · rw [e]
        exact hv
  | none =>
      have e : flutter_local_db_plugin_get_type reg
          = (reg.usedIds + 1,
             { cachedTypeId := some (reg.usedIds + 1),
               usedIds := reg.usedIds + 1 }) := by
        unfold flutter_local_db_plugin_get_type
        rw [h]
      refine ⟨?_, ?_, ?_⟩
      · rw [e]
        exact Nat.succ_pos _
      · rw [e]
        rfl
      · rw [e]
        intro u hu
        simp at hu
        omega

/-- C4 witness: the theorem applied to the process-start registry, whose
validity holds vacuously because nothing is cached yet. -/
theorem get_type_stable_nonnull_witness :
    0 < (flutter_local_db_plugin_get_type TypeRegistry.start).1 ∧
    (flutter_local_db_plugin_get_type
        (flutter_local_db_plugin_get_type TypeRegistry.start).2).1
      = (flutter_local_db_plugin_get_type TypeRegistry.start).1 ∧
    TypeRegistry.Valid (flutter_local_db_plugin_get_type TypeRegistry.start).2 :=
  get_type_stable_nonnull TypeRegistry.start (fun t ht => by simp [TypeRegistry.start] at ht)

/-- C5: the registration state machine has exactly the two states
unregistered and registered; the register step moves the machine to the
registered state unconditionally (in particular from unregistered), and it
never produces the unregistered state again, so the transition out of
unregistered is irreversible and no transition back exists. -/
theorem registration_state_machine :
    (∀ s : RegState, s = RegState.unregistered ∨ s = RegState.registered) ∧
    (∀ (registrar : RegistrarHandle) (engine : EngineState),
      registrationStep registrar engine RegState.unregistered
        = RegState.registered) ∧
    (∀ (registrar : RegistrarHandle) (engine : EngineState) (s : RegState),
      registrationStep registrar engine s ≠ RegState.unregistered) := by
  refine ⟨?_, fun _ _ => rfl, ?_⟩
  · intro s
    cases s
    · exact Or.inl rfl
    · exact Or.inr rfl
  · intro registrar engine s h
    exact RegState.noConfusion h

/-- C6: the plugin object type carries no data beyond the base header: the
header projection is a bijection between plugin instances and base-object
headers (so an instance is nothing but its header), and the only instance
operation the source defines leaves every instance unchanged. -/
theorem plugin_carries_no_data :
    (∀ p q : FlutterLocalDbPlugin, p.parent_instance = q.parent_instance → p = q) ∧
    (∀ g : GObject, ∃ p : FlutterLocalDbPlugin, p.parent_instance = g) ∧
    (∀ p : FlutterLocalDbPlugin, flutter_local_db_plugin_init p = p) := by
  refine ⟨?_, ?_, fun _ => rfl⟩
  · intro p q h
    cases p
    cases q
    cases h
    rfl
  · intro g
    exact ⟨{ parent_instance := g }, rfl⟩

/-- C7: repeatedly constructed instances are independent: running the
instance initializer (the only operation on an instance) on the i-th
instance of a heap leaves every other position of the heap unchanged, so an
operation on one instance cannot affect another. -/
theorem instances_independent :
    ∀ (heap : PluginHeap) (i j : Nat), i ≠ j →
      (runInitAt heap i).get? j = heap.get? j := by
  intro heap
  induction heap with
  | nil =>
      intro i j _
      rfl
  | cons p ps ih =>
      intro i j hij
      cases i with
      | zero =>
          cases j with
          | zero => exact absurd rfl hij
          | succ j => rfl
      | succ i =>
          cases j with
          | zero => rfl
          | succ j =>
              have hij2 : i ≠ j := fun hh => hij (by rw [hh])
              exact ih i j hij2

/-- C7 witness: the theorem applied to a concrete two-instance heap, showing
that initializing instance 0 does not touch instance 1. -/
theorem instances_independent_witness :
    (runInitAt
        [ { parent_instance := { g_type_instance := 7, ref_count := 1 } },
          { parent_instance := { g_type_instance := 7, ref_count := 2 } } ] 0).get? 1
      = ([ { parent_instance := { g_type_instance := 7, ref_count := 1 } },
           { parent_instance := { g_type_instance := 7, ref_count := 2 } } ]
          : PluginHeap).get? 1 :=
  instances_independent
    [ { parent_instance := { g_type_instance := 7, ref_count := 1 } },
      { parent_instance := { g_type_instance := 7, ref_count := 2 } } ] 0 1
    (by decide)

/-- C8: register is total over all handles, valid or not: it never reads or
stores its registrar argument, it handles the NULL case safely, and its
effect on the engine state is identical for every pair of handles. -/
theorem register_total_over_all_handles :
    (∀ (registrar : RegistrarHandle) (engine : EngineState),
      flutter_local_db_plugin_register_with_registrar registrar engine
        = (registrar, engine)) ∧
    (∀ engine : EngineState,
      flutter_local_db_plugin_register_with_registrar none engine
        = (none, engine)) ∧
    (∀ (r1 r2 : RegistrarHandle) (engine : EngineState),
      (flutter_local_db_plugin_register_with_registrar r1 engine).2
        = (flutter_local_db_plugin_register_with_registrar r2 engine).2) :=
  ⟨fun _ _ => rfl, fun _ => rfl, fun _ _ _ => rfl⟩

/-- C9: register is idempotent: for every registrar handle, engine state and
n at least 1, calling the register function n times is observationally equal
to calling it once. -/
theorem register_idempotent
    (n : Nat) (hn : 1 ≤ n) (registrar : RegistrarHandle) (engine : EngineState) :
    registerIter n (registrar, engine)
      = flutter_local_db_plugin_register_with_registrar registrar engine := by
  have _hk := hn
  rw [registerIter_fixed]
  rfl

/-- C9 witness: three calls on a concrete mock registrar and engine state
equal a single call. -/
theorem register_idempotent_witness :
    registerIter 3 (some { interactions := [] }, { channels := ["x"] })
      = flutter_local_db_plugin_register_with_registrar
          (some { interactions := [] }) { channels := ["x"] } :=
  register_idempotent 3 (by decide) (some { interactions := [] }) { channels := ["x"] }

/-- C10: construction performs no initialization beyond the base object: the
class initializer and the instance initializer are identities, and a freshly
constructed instance is exactly the bare base header wrapped in the plugin
type, deterministically. -/
theorem construction_is_effect_free :
    (∀ klass : FlutterLocalDbPluginClass,
      flutter_local_db_plugin_class_init klass = klass) ∧
    (∀ self : FlutterLocalDbPlugin,
      flutter_local_db_plugin_init self = self) ∧
    (∀ header : GObject,
      newFlutterLocalDbPlugin header = { parent_instance := header }) :=
  ⟨fun _ => rfl, fun _ => rfl, fun _ => rfl⟩
